import Mathlib

/-!
Shallow embedding of the display client's real-time game-state
reconciliation code (src/hooks/useSocket.ts, src/lib/security.ts,
src/lib/constants.ts, app/page.tsx).

Each socket handler registered in setupSocketListeners is embedded as a
pure function on the state it mutates. Where the source registers two
handlers for the same wire event name (socket.io invokes every registered
listener in registration order), the event's application is the
composition of both handlers in that order.

JavaScript merge idioms are embedded explicitly:
  a value read from a possibly-absent payload field is an Option;
  the JS expression (x || y) on numbers falls back when x is absent or 0;
  the JS expression (x ?? y) falls back only when x is absent;
  the JS expression (x || y) on arrays falls back only when x is absent
  (an empty array is truthy).
-/

namespace Display

/-- Game status enum from src/types/index.ts (GameStatus). -/
inductive GameStatus
  | waiting
  | active
  | paused
  | finished
  | completed
  | cancelled
  deriving DecidableEq, Repr

/-- Statuses the claims call terminal. -/
def GameStatus.isTerminal : GameStatus → Bool
  | .completed => true
  | .finished => true
  | .cancelled => true
  | _ => false

/-- GameState from src/types/index.ts, with the optional numeric fields at
their initial values from useSocket.ts lines 38-56 when absent. -/
structure GameState where
  currentNumber : Option Nat := none
  currentColumn : Option String := none
  calledNumbers : List Nat := []
  gameStatus : GameStatus := .waiting
  gameId : Option String := none
  eventId : Option String := none
  cartelas : Nat := 0
  stack : Nat := 0
  totalStack : Nat := 0
  totalWinStack : Nat := 0
  totalShopMargin : Nat := 0
  totalSystemFee : Nat := 0
  netPrizePool : Nat := 0
  netShopProfit : Nat := 0
  gameHistory : List String := []
  top3Winners : List String := []
  isLoadingGameData : Bool := false
  selectedCartelas : List Nat := []
  sessionId : Option String := none
  deriving DecidableEq, Repr

/-- The initial GameState passed to useState in useSocket.ts lines 38-56. -/
def initialGameState : GameState := {}

/-- JS merge (payloadField || prev) on a numeric field: a supplied non-zero
value wins, an absent or zero (falsy) value keeps the previous one. -/
def orFalsyNat (v : Option Nat) (prev : Nat) : Nat :=
  match v with
  | some n => if n = 0 then prev else n
  | none => prev

/-- JS merge (payloadField || prev) where both sides are optional numbers
(used for currentNumber): supplied non-zero wins, else previous. -/
def orFalsyOptNat (v : Option Nat) (prev : Option Nat) : Option Nat :=
  match v with
  | some n => if n = 0 then prev else some n
  | none => prev

/-- getColumnForNumber from useSocket.ts lines 1381-1388: the BINGO column
letter for a number, or the empty string outside the 1..75 range. -/
def getColumnForNumber (number : Int) : String :=
  if 1 ≤ number ∧ number ≤ 15 then "B"
  else if 16 ≤ number ∧ number ≤ 30 then "I"
  else if 31 ≤ number ∧ number ≤ 45 then "N"
  else if 46 ≤ number ∧ number ≤ 60 then "G"
  else if 61 ≤ number ∧ number ≤ 75 then "O"
  else ""

/-- The identical getColumnForNumber copy in src/lib/security.ts (utils
section) lines 201-208. -/
def getColumnForNumberUtils (number : Int) : String :=
  if 1 ≤ number ∧ number ≤ 15 then "B"
  else if 16 ≤ number ∧ number ≤ 30 then "I"
  else if 31 ≤ number ∧ number ≤ 45 then "N"
  else if 46 ≤ number ∧ number ≤ 60 then "G"
  else if 61 ≤ number ∧ number ≤ 75 then "O"
  else ""

/-- Column letter assignment written from the specification text: B for
1-15, I for 16-30, N for 31-45, G for 46-60, O for 61-75, no column (empty)
for anything outside 1..75. Deliberately phrased differently from the
source function so the equality below is informative. -/
def columnSpec (n : Int) : String :=
  if n < 1 ∨ 75 < n then ""
  else if n ≤ 15 then "B"
  else if n ≤ 30 then "I"
  else if n ≤ 45 then "N"
  else if n ≤ 60 then "G"
  else "O"

/-- Payload of the wire event game_reset. The TypeScript annotation on the
first handler declares all fields, but nothing at runtime guarantees their
presence, so every field is optional here. -/
structure GameResetPayload where
  gameId : Option String := none
  calledNumbers : Option (List Nat) := none
  cartelas : Option Nat := none
  totalStack : Option Nat := none
  totalWinStack : Option Nat := none
  deriving DecidableEq, Repr

/-- First registered game_reset handler (useSocket.ts lines 209-251): sets
status to waiting, clears progress data, and zeroes cartelas, totalStack,
totalWinStack, totalShopMargin, totalSystemFee and netPrizePool. The
source also writes a progress field that does not exist on GameState, and
netShopProfit, stack, selectedCartelas and sessionId are untouched. -/
def applyGameResetA (p : GameResetPayload) (s : GameState) : GameState :=
  { s with
    gameId := p.gameId
    gameStatus := .waiting
    calledNumbers := []
    currentNumber := none
    currentColumn := none
    cartelas := 0
    totalStack := 0
    totalWinStack := 0
    totalShopMargin := 0
    totalSystemFee := 0
    netPrizePool := 0
    eventId := none
    gameHistory := []
    top3Winners := []
    isLoadingGameData := false }

/-- Second registered game_reset handler (useSocket.ts lines 622-653):
preserve-or-override using the nullish merge for cartelas, totalWinStack
and totalStack; calledNumbers is (data.calledNumbers || []), and an empty
array is truthy in JS so only an absent field falls back to []. -/
def applyGameResetB (p : GameResetPayload) (s : GameState) : GameState :=
  { s with
    gameId := p.gameId
    gameStatus := .waiting
    calledNumbers := p.calledNumbers.getD []
    currentNumber := none
    currentColumn := none
    cartelas := p.cartelas.getD s.cartelas
    totalWinStack := p.totalWinStack.getD s.totalWinStack
    totalStack := p.totalStack.getD s.totalStack
    eventId := none
    gameHistory := []
    top3Winners := []
    isLoadingGameData := false
    sessionId := none }

/-- Effect of one inbound game_reset event: socket.io invokes both
registered listeners in registration order, so the first (zeroing) handler
runs and the second (preserving) handler then folds over its result. -/
def applyGameReset (p : GameResetPayload) (s : GameState) : GameState :=
  applyGameResetB p (applyGameResetA p s)

/-- Fields of data.gameData carried by bets_placed; every field is read
through optional chaining in the source, so all are optional. The status
field is an Option GameStatus, none standing for an absent or empty (hence
falsy) status string. -/
structure BetsPlacedPayload where
  cartelas : Option Nat := none
  stack : Option Nat := none
  totalStack : Option Nat := none
  totalWinStack : Option Nat := none
  totalShopMargin : Option Nat := none
  totalSystemFee : Option Nat := none
  netPrizePool : Option Nat := none
  netShopProfit : Option Nat := none
  status : Option GameStatus := none
  calledNumbers : Option (List Nat) := none
  currentNumber : Option Nat := none
  deriving DecidableEq, Repr

/-- bets_placed handler (useSocket.ts lines 291-344): falsy-coalescing
merge (gameData?.field || prev.field) on every financial and betting
field. -/
def applyBetsPlaced (p : BetsPlacedPayload) (s : GameState) : GameState :=
  { s with
    cartelas := orFalsyNat p.cartelas s.cartelas
    stack := orFalsyNat p.stack s.stack
    totalStack := orFalsyNat p.totalStack s.totalStack
    totalWinStack := orFalsyNat p.totalWinStack s.totalWinStack
    totalShopMargin := orFalsyNat p.totalShopMargin s.totalShopMargin
    totalSystemFee := orFalsyNat p.totalSystemFee s.totalSystemFee
    netPrizePool := orFalsyNat p.netPrizePool s.netPrizePool
    netShopProfit := orFalsyNat p.netShopProfit s.netShopProfit
    gameStatus := p.status.getD s.gameStatus
    calledNumbers := p.calledNumbers.getD s.calledNumbers
    currentNumber := orFalsyOptNat p.currentNumber s.currentNumber
    currentColumn :=
      match p.currentNumber with
      | some n => if n = 0 then s.currentColumn else some (getColumnForNumber n)
      | none => s.currentColumn }

/-- Payload of game_data_updated and game_data_response: a top-level id
(none stands for absent or empty, both falsy, in which case the handlers
do nothing), a status, and the gameData fields. -/
structure GameDataPayload where
  id : Option String := none
  status : Option GameStatus := none
  cartelas : Option Nat := none
  stack : Option Nat := none
  totalStack : Option Nat := none
  totalWinStack : Option Nat := none
  totalShopMargin : Option Nat := none
  totalSystemFee : Option Nat := none
  netPrizePool : Option Nat := none
  netShopProfit : Option Nat := none
  calledNumbers : Option (List Nat) := none
  currentNumber : Option Nat := none
  deriving DecidableEq, Repr

/-- First registered game_data_updated handler (useSocket.ts lines
347-402): guarded by data?.id; sets gameId to data.id and merges the
financial fields with the falsy-coalescing (||) idiom. -/
def applyGameDataUpdatedA (p : GameDataPayload) (s : GameState) : GameState :=
  match p.id with
  | none => s
  | some i =>
    { s with
      gameId := some i
      gameStatus := p.status.getD s.gameStatus
      cartelas := orFalsyNat p.cartelas s.cartelas
      totalStack := orFalsyNat p.totalStack s.totalStack
      totalWinStack := orFalsyNat p.totalWinStack s.totalWinStack
      totalShopMargin := orFalsyNat p.totalShopMargin s.totalShopMargin
      totalSystemFee := orFalsyNat p.totalSystemFee s.totalSystemFee
      netPrizePool := orFalsyNat p.netPrizePool s.netPrizePool
      netShopProfit := orFalsyNat p.netShopProfit s.netShopProfit
      calledNumbers := p.calledNumbers.getD s.calledNumbers
      currentNumber := orFalsyOptNat p.currentNumber s.currentNumber
      currentColumn :=
        match p.currentNumber with
        | some n => if n = 0 then s.currentColumn else some (getColumnForNumber n)
        | none => s.currentColumn }

/-- Second registered game_data_updated handler (useSocket.ts lines
739-789): guarded by data?.id; replaces gameId only if unset or different
(shouldUpdateGameId), clears progress data when the snapshot status is
waiting, and merges every betting field with the nullish (??) idiom. -/
def applyGameDataUpdatedB (p : GameDataPayload) (s : GameState) : GameState :=
  match p.id with
  | none => s
  | some i =>
    let shouldUpdateGameId := s.gameId.isNone || some i != s.gameId
    let isGameWaiting := p.status = some .waiting
    { s with
      gameId := if shouldUpdateGameId then some i else s.gameId
      gameStatus := p.status.getD s.gameStatus
      calledNumbers :=
        if isGameWaiting then [] else p.calledNumbers.getD s.calledNumbers
      currentNumber :=
        if isGameWaiting then none else orFalsyOptNat p.currentNumber s.currentNumber
      currentColumn :=
        if isGameWaiting then none
        else
          match p.currentNumber with
          | some n => if n = 0 then s.currentColumn else some (getColumnForNumber n)
          | none => s.currentColumn
      totalWinStack := p.totalWinStack.getD s.totalWinStack
      totalStack := p.totalStack.getD s.totalStack
      cartelas := p.cartelas.getD s.cartelas
      stack := p.stack.getD s.stack
      totalShopMargin := p.totalShopMargin.getD s.totalShopMargin
      totalSystemFee := p.totalSystemFee.getD s.totalSystemFee
      netPrizePool := p.netPrizePool.getD s.netPrizePool
      netShopProfit := p.netShopProfit.getD s.netShopProfit
      isLoadingGameData := false }

/-- Effect of one inbound game_data_updated event: both registered
listeners run in registration order. -/
def applyGameDataUpdated (p : GameDataPayload) (s : GameState) : GameState :=
  applyGameDataUpdatedB p (applyGameDataUpdatedA p s)

/-- Payload of game_cleared: an optional replacement game id. The source
computes (data.gameId || undefined), so none also stands for a supplied
empty (falsy) string. -/
structure GameClearedPayload where
  gameId : Option String := none
  deriving DecidableEq, Repr

/-- game_cleared handler, setGameState part (useSocket.ts lines 186-204):
gameId becomes (data.gameId || undefined) and status becomes waiting. The
handler also writes ad-hoc fields into the display state object that do
not exist on the DisplayState interface; those are not modelled. -/
def applyGameCleared (p : GameClearedPayload) (s : GameState) : GameState :=
  { s with gameId := p.gameId, gameStatus := .waiting }

/-- Payload of game_comprehensive_reset. -/
structure ComprehensiveResetPayload where
  newGameId : Option String := none
  deriving DecidableEq, Repr

/-- game_comprehensive_reset handler, setGameState part (useSocket.ts
lines 424-467): gameId becomes (data.newGameId || undefined), progress
data and selections are cleared, betting data is deliberately preserved
(source comment). The page-reload side effect when newGameId is present is
not part of the state. -/
def applyGameComprehensiveReset (p : ComprehensiveResetPayload) (s : GameState) :
    GameState :=
  { s with
    gameId := p.newGameId
    gameStatus := .waiting
    calledNumbers := []
    currentNumber := none
    currentColumn := none
    eventId := none
    gameHistory := []
    top3Winners := []
    isLoadingGameData := false
    sessionId := none
    selectedCartelas := [] }

/-- game_ended handler (wire name game_ended, useSocket.ts lines 655-690):
status becomes waiting (the source comment says it was changed from
finished to waiting for the next round), progress data is cleared,
betting data is preserved. -/
def applyGameEnded (s : GameState) : GameState :=
  { s with
    gameStatus := .waiting
    currentNumber := none
    currentColumn := none
    calledNumbers := []
    eventId := none
    gameHistory := []
    top3Winners := []
    isLoadingGameData := false
    sessionId := none }

/-- Payload shared by end_game and game_completed: the game id written
straight into the state. -/
structure EndGamePayload where
  gameId : Option String := none
  deriving DecidableEq, Repr

/-- end_game handler (useSocket.ts lines 1115-1132): status completed. -/
def applyEndGame (p : EndGamePayload) (s : GameState) : GameState :=
  { s with gameStatus := .completed, gameId := p.gameId }

/-- game_completed handler (useSocket.ts lines 1086-1112): status
completed. -/
def applyGameCompleted (p : EndGamePayload) (s : GameState) : GameState :=
  { s with gameStatus := .completed, gameId := p.gameId }

/-- Payload of number_called. -/
structure NumberCalledPayload where
  number : Option Nat := none
  deriving DecidableEq, Repr

/-- number_called handler (useSocket.ts lines 527-543): guarded by
(data?.number && 1 <= number <= 75); appends the number to calledNumbers
and sets the current number and column. -/
def applyNumberCalled (p : NumberCalledPayload) (s : GameState) : GameState :=
  match p.number with
  | some n =>
    if 1 ≤ n ∧ n ≤ 75 then
      { s with
        currentNumber := some n
        currentColumn := some (getColumnForNumber n)
        calledNumbers := s.calledNumbers ++ [n] }
    else s
  | none => s

/-- Payload of number_drawn. -/
structure NumberDrawnPayload where
  number : Option Nat := none
  calledNumbers : Option (List Nat) := none
  deriving DecidableEq, Repr

/-- number_drawn handler, setGameState part (useSocket.ts lines 694-715):
calledNumbers is taken verbatim from the payload when present (an empty
array is truthy, only an absent field preserves the previous list),
currentNumber is assigned directly, and currentColumn is derived when the
number is truthy. The transient isDrawing display flag, set true and
reverted by a two-second timer, is not part of the game state. -/
def applyNumberDrawn (p : NumberDrawnPayload) (s : GameState) : GameState :=
  { s with
    calledNumbers := p.calledNumbers.getD s.calledNumbers
    currentNumber := p.number
    currentColumn :=
      match p.number with
      | some n => if n = 0 then none else some (getColumnForNumber n)
      | none => none }

/-- Payload of cartela_selected and cartela_deselected. -/
structure CartelaPayload where
  cartelaId : Nat
  deriving DecidableEq, Repr

/-- cartela_selected handler (useSocket.ts lines 1144-1155): appends the
id to selectedCartelas. -/
def applyCartelaSelected (p : CartelaPayload) (s : GameState) : GameState :=
  { s with selectedCartelas := s.selectedCartelas ++ [p.cartelaId] }

/-- cartela_deselected handler (useSocket.ts lines 1159-1170): removes
every occurrence of the id from selectedCartelas via Array.filter. -/
def applyCartelaDeselected (p : CartelaPayload) (s : GameState) : GameState :=
  { s with selectedCartelas := s.selectedCartelas.filter (· != p.cartelaId) }

/-- Language selector from src/types/index.ts. -/
inductive Language
  | AM
  | OR
  | TG
  deriving DecidableEq, Repr

/-- DisplayState from src/types/index.ts, initial values from useSocket.ts
lines 58-71. -/
structure DisplayState where
  isConnected : Bool := false
  connectionError : Option String := none
  isLoading : Bool := true
  selectedLanguage : Language := .AM
  isFullScreen : Bool := false
  showGameHistory : Bool := false
  showTop3Winners : Bool := false
  showVerificationModal : Bool := false
  modalPersistent : Bool := false
  isDrawing : Bool := false
  show3DMixer : Bool := false
  isShuffling : Bool := false
  deriving DecidableEq, Repr

/-- Combined state touched by the verification-modal handlers: the display
state, the cached verification payload (abstracted to its cartela id), and
whether the handler requested a full page reload (the
window.location.reload side effect, which resets every piece of state and
is therefore an observable change). -/
structure ModalWorld where
  game : GameState := {}
  display : DisplayState := {}
  verificationData : Option Nat := none
  reloadRequested : Bool := false
  deriving DecidableEq, Repr

/-- Payload of the three verification-modal-closing events. -/
structure SessionPayload where
  sessionId : Option String := none
  deriving DecidableEq, Repr

/-- close-verification-modal handler (useSocket.ts lines 885-903): applied
only when data.sessionId strictly equals the display token, otherwise a
logged no-op. -/
def applyCloseVerificationModal (token : String) (p : SessionPayload)
    (w : ModalWorld) : ModalWorld :=
  if p.sessionId = some token then
    { w with
      display := { w.display with
        showVerificationModal := false
        modalPersistent := false }
      verificationData := none }
  else w

/-- close-verification-modal-display handler (useSocket.ts lines 906-924):
same session guard and same effect as close-verification-modal. -/
def applyCloseVerificationModalDisplay (token : String) (p : SessionPayload)
    (w : ModalWorld) : ModalWorld :=
  if p.sessionId = some token then
    { w with
      display := { w.display with
        showVerificationModal := false
        modalPersistent := false }
      verificationData := none }
  else w

/-- verification_modal_closed handler (useSocket.ts lines 1076-1083): logs
the payload sessionId but unconditionally calls window.location.reload,
with no session comparison. -/
def applyVerificationModalClosed (_p : SessionPayload) (w : ModalWorld) :
    ModalWorld :=
  { w with reloadRequested := true }

/-- The NO_TOKEN message from src/lib/constants.ts (ERROR_MESSAGES). -/
def noTokenMessage : String := "No display token provided in URL"

/-- Connection-level hook state (the isConnected, connectionError and
isLoading useState cells of useSocket, initial values from lines
34-36). -/
structure ConnState where
  isConnected : Bool := false
  connectionError : Option String := none
  isLoading : Bool := true
  deriving DecidableEq, Repr

/-- JS falsiness of the nullable display token: null or the empty string. -/
def tokenFalsy : Option String → Bool
  | none => true
  | some t => t = ""

/-- initializeSocket (useSocket.ts lines 89-125) restricted to its
observable effect on the hook state: with a falsy token it sets the
NO_TOKEN connection error, marks disconnected and not loading, and
returns no socket (second component false); with a real token it creates
the socket (second component true) and leaves the state alone. The
exceptional catch branch of the io constructor is outside this model. -/
def initSocket (displayToken : Option String) (st : ConnState) :
    ConnState × Bool :=
  if tokenFalsy displayToken then
    ({ st with
        connectionError := some noTokenMessage
        isConnected := false
        isLoading := false }, false)
  else (st, true)

/-- The connection effect (useSocket.ts lines 1391-1423): returns early,
creating nothing, when the token is falsy, and otherwise defers to
initializeSocket. -/
def connectionEffect (displayToken : Option String) (st : ConnState) :
    ConnState × Bool :=
  if tokenFalsy displayToken then (st, false)
  else initSocket displayToken st

/-- Local state of the DisplayPage component (app page) that the overlay
projector mutates: overlay visibility, the local selection cache, the
available-cartela list, and the per-token just-started localStorage
guard. -/
structure PageState where
  showCartelas : Bool := false
  selectedCartelas : List Nat := []
  availableCartelas : List Nat := []
  justStarted : Bool := false
  deriving DecidableEq, Repr

/-- Selection-sync effect of DisplayPage (page lines 249-277): copies the
authoritative selection into the local cache, then shows the overlay when
something is selected or bet on, the status is waiting and the
just-started guard is absent (a present guard is consumed instead), and
closes the overlay when nothing is selected and nothing is bet on. -/
def selectionSyncEffect (gsSelected : List Nat) (placedBets : List Nat)
    (status : GameStatus) (ps : PageState) : PageState :=
  let ps := { ps with selectedCartelas := gsSelected }
  let shouldShowCartelas := !gsSelected.isEmpty || !placedBets.isEmpty
  if shouldShowCartelas then
    if status = .waiting then
      if !ps.justStarted then { ps with showCartelas := true }
      else { ps with justStarted := false }
    else ps
  else { ps with showCartelas := false }

/-- Terminal-status close effect of DisplayPage (page lines 295-309): when
the status is no longer waiting and the overlay is visible, a terminal
status (completed, finished, cancelled) force-closes the overlay and
clears both caches; active and the remaining statuses leave it open. -/
def terminalCloseEffect (status : GameStatus) (ps : PageState) : PageState :=
  if status ≠ .waiting ∧ ps.showCartelas then
    if status.isTerminal then
      { ps with
        showCartelas := false
        selectedCartelas := []
        availableCartelas := [] }
    else ps
  else ps

/-- One projector step: both effects re-run, in source order, whenever the
game status or the authoritative selection changes. -/
def projectorStep (gsSelected : List Nat) (placedBets : List Nat)
    (status : GameStatus) (ps : PageState) : PageState :=
  terminalCloseEffect status (selectionSyncEffect gsSelected placedBets status ps)

/-- A bets_placed payload explicitly supplying every financial and
betting field as 0, used to examine the falsy-coalescing merge. -/
def zeroFinancialsPayload : BetsPlacedPayload where
  cartelas := some 0
  stack := some 0
  totalStack := some 0
  totalWinStack := some 0
  totalShopMargin := some 0
  totalSystemFee := some 0
  netPrizePool := some 0
  netShopProfit := some 0

/-- C1: evaluating the code at the failing input. Starting from
totalStack = 500, one game_reset event whose payload carries no financial
fields leaves totalStack = 0, because the first registered game_reset
handler zeroes it before the second, preserving handler runs; the second
handler alone would have preserved 500 (second conjunct, matching the
claim and the handler's own comment); a subsequent bets_placed with
totalStack 650 sets 650 (third conjunct, the part of the claim the code
does satisfy). -/
theorem gameReset_zeroes_sticky_financials :
    (applyGameReset { gameId := some "game-1" }
      { initialGameState with totalStack := 500 }).totalStack = 0
    ∧ (applyGameResetB { gameId := some "game-1" }
        { initialGameState with totalStack := 500 }).totalStack = 500
    ∧ (applyBetsPlaced { totalStack := some 650 }
        (applyGameReset { gameId := some "game-1" }
          { initialGameState with totalStack := 500 })).totalStack = 650 :=
  ⟨rfl, rfl, rfl⟩

/-- C2 counterexample: the number_called handler appends unconditionally,
so re-applying the same number-called event with the identical payload
{number: 37} is an observable state change: calledNumbers ends as
[37, 37], containing 37 twice rather than exactly once. -/
theorem numberCalled_repeat_double_appends :
    (applyNumberCalled { number := some 37 }
      (applyNumberCalled { number := some 37 } initialGameState)).calledNumbers
        = [37, 37]
    ∧ (applyNumberCalled { number := some 37 } initialGameState).calledNumbers
        = [37] :=
  ⟨rfl, rfl⟩

/-- C2 amended: the number_drawn handler is idempotent for every payload
and state, and for the payload {number: 37, calledNumbers: [37]} the state
after one application has calledNumbers containing 37 exactly once,
currentNumber 37 and currentColumn N. -/
theorem numberDrawn_idempotent :
    (∀ (p : NumberDrawnPayload) (s : GameState),
      applyNumberDrawn p (applyNumberDrawn p s) = applyNumberDrawn p s)
    ∧ (applyNumberDrawn { number := some 37, calledNumbers := some [37] }
        initialGameState).calledNumbers.count 37 = 1
    ∧ (applyNumberDrawn { number := some 37, calledNumbers := some [37] }
        initialGameState).currentNumber = some 37
    ∧ (applyNumberDrawn { number := some 37, calledNumbers := some [37] }
        initialGameState).currentColumn = some "N" := by
  refine ⟨fun p s => ?_, rfl, rfl, rfl⟩
  obtain ⟨num, cn⟩ := p
  cases cn <;> rfl

/-- C3 counterexample: a game_cleared event whose payload carries no game
id clears an already-set gameId back to unset. -/
theorem gameCleared_clears_gameId :
    (applyGameCleared {} { initialGameState with gameId := some "game-1" }).gameId
      = none :=
  rfl

/-- C3 amended: game_data_updated (both registered handlers composed)
replaces gameId exactly when the payload supplies an id and preserves it
otherwise, so it never clears a set id; game_cleared and
game_comprehensive_reset instead write the payload id directly, clearing
gameId whenever their payload lacks one. -/
theorem gameId_update_rules :
    (∀ (p : GameDataPayload) (s : GameState),
      (applyGameDataUpdated p s).gameId =
        match p.id with
        | some i => some i
        | none => s.gameId)
    ∧ (∀ (p : GameClearedPayload) (s : GameState),
        (applyGameCleared p s).gameId = p.gameId)
    ∧ (∀ (p : ComprehensiveResetPayload) (s : GameState),
        (applyGameComprehensiveReset p s).gameId = p.newGameId) := by
  refine ⟨fun p s => ?_, fun p s => rfl, fun p s => rfl⟩
  cases hid : p.id with
  | none => simp [applyGameDataUpdated, applyGameDataUpdatedA,
      applyGameDataUpdatedB, hid]
  | some i => simp [applyGameDataUpdated, applyGameDataUpdatedA,
      applyGameDataUpdatedB, hid]

/-- C4 counterexample: the verification_modal_closed handler performs no
session comparison and unconditionally requests a full page reload, so a
verification_modal_closed event with sessionId X is not a no-op even
though the active display token is Y (the handler never reads the token,
so its result is the same for every active token): the resulting world has
reloadRequested true where the input world had it false, so state did
change. -/
theorem verificationModalClosed_not_noop :
    (applyVerificationModalClosed { sessionId := some "X" } {}).reloadRequested = true
    ∧ ModalWorld.reloadRequested {} = false :=
  ⟨rfl, rfl⟩

/-- C4 amended: close-verification-modal and its direct-display variant
are no-ops whenever the payload sessionId differs from the active display
token (in particular sessionId X against token Y), leaving every piece of
game, display and verification state unchanged; the alias
verification_modal_closed instead requests a full page reload for every
payload, matched or not. -/
theorem session_guard_close_modal :
    (∀ (token : String) (p : SessionPayload) (w : ModalWorld),
      p.sessionId ≠ some token → applyCloseVerificationModal token p w = w)
    ∧ (∀ (token : String) (p : SessionPayload) (w : ModalWorld),
      p.sessionId ≠ some token → applyCloseVerificationModalDisplay token p w = w)
    ∧ (∀ (p : SessionPayload) (w : ModalWorld),
      (applyVerificationModalClosed p w).reloadRequested = true) := by
  refine ⟨fun token p w h => ?_, fun token p w h => ?_, fun p w => rfl⟩
  · simp [applyCloseVerificationModal, h]
  · simp [applyCloseVerificationModalDisplay, h]

/-- C4 witness: the guard theorem applied at the concrete mismatch of the
claim, token Y against payload sessionId X. -/
theorem session_guard_close_modal_witness :
    applyCloseVerificationModal "Y" { sessionId := some "X" } {} = {}
    ∧ applyCloseVerificationModalDisplay "Y" { sessionId := some "X" } {} = {}
    ∧ (applyVerificationModalClosed { sessionId := some "X" } {}).reloadRequested
        = true :=
  ⟨session_guard_close_modal.1 "Y" { sessionId := some "X" } {} (by decide),
   session_guard_close_modal.2.1 "Y" { sessionId := some "X" } {} (by decide),
   session_guard_close_modal.2.2 { sessionId := some "X" } {}⟩

/-- C5 counterexample: applying a game_ended event sets gameStatus to
waiting, which is not one of the terminal statuses finished, completed,
cancelled. -/
theorem gameEnded_sets_waiting_not_terminal :
    (applyGameEnded { initialGameState with gameStatus := .active }).gameStatus
      = .waiting
    ∧ ((applyGameEnded { initialGameState with gameStatus := .active }).gameStatus).isTerminal
      = false :=
  ⟨rfl, rfl⟩

/-- C5 amended: end_game and game_completed set gameStatus to the terminal
status completed for every state and payload, while game_ended sets it to
waiting (fresh-round semantics, per the handler's own comment), not to a
terminal status. -/
theorem end_event_statuses :
    (∀ (p : EndGamePayload) (s : GameState),
      (applyEndGame p s).gameStatus = .completed)
    ∧ (∀ (p : EndGamePayload) (s : GameState),
      (applyGameCompleted p s).gameStatus = .completed)
    ∧ (∀ (s : GameState), (applyGameEnded s).gameStatus = .waiting) :=
  ⟨fun _ _ => rfl, fun _ _ => rfl, fun _ => rfl⟩

/-- C6: from any state, selecting cartela 5 twice and deselecting it once
leaves selectedCartelas without 5, because cartela_deselected filters out
every occurrence of the id. -/
theorem select_select_deselect_removes :
    ∀ (s : GameState),
      ((applyCartelaDeselected ⟨5⟩
        (applyCartelaSelected ⟨5⟩
          (applyCartelaSelected ⟨5⟩ s))).selectedCartelas).count 5 = 0 := by
  intro s
  simp [applyCartelaDeselected, applyCartelaSelected, List.count_eq_zero,
    List.mem_filter]

/-- C7 counterexample: with the selection set and the placed-bet index
both empty, a projector step at status active closes a previously visible
overlay, so the prior visible state is not preserved unchanged on
active. -/
theorem overlay_active_empty_closes :
    (projectorStep [] [] .active { showCartelas := true }).showCartelas = false :=
  rfl

/-- C7 amended: the overlay becomes visible when the status is waiting,
the selection set or the placed-bet index is non-empty and the
just-started guard is absent; on a terminal status the overlay always ends
closed, and when it was visible its selection cache is also cleared; on
active the prior visible state is preserved provided the selection set or
the placed-bet index is non-empty (when both are empty the sync effect
closes the overlay at any status). -/
theorem overlay_gating_rules :
    (∀ (gsSel placed : List Nat) (ps : PageState),
      (gsSel ≠ [] ∨ placed ≠ []) → ps.justStarted = false →
        (projectorStep gsSel placed .waiting ps).showCartelas = true)
    ∧ (∀ (gsSel placed : List Nat) (st : GameStatus) (ps : PageState),
      st.isTerminal = true →
        (projectorStep gsSel placed st ps).showCartelas = false)
    ∧ (∀ (gsSel placed : List Nat) (st : GameStatus) (ps : PageState),
      st.isTerminal = true → ps.showCartelas = true →
        (projectorStep gsSel placed st ps).selectedCartelas = [])
    ∧ (∀ (gsSel placed : List Nat) (ps : PageState),
      (gsSel ≠ [] ∨ placed ≠ []) →
        (projectorStep gsSel placed .active ps).showCartelas = ps.showCartelas) := by
  refine ⟨fun gsSel placed ps h hjs => ?_, fun gsSel placed st ps hterm => ?_,
    fun gsSel placed st ps hterm hshow => ?_, fun gsSel placed ps h => ?_⟩
  · cases gsSel <;> cases placed <;>
      simp_all [projectorStep, selectionSyncEffect, terminalCloseEffect]
  · cases st <;> simp_all [GameStatus.isTerminal] <;>
      cases gsSel <;> cases placed <;>
        simp_all [projectorStep, selectionSyncEffect, terminalCloseEffect] <;>
          split_ifs <;> simp_all [GameStatus.isTerminal]
  · cases st <;> simp_all [GameStatus.isTerminal] <;>
      cases gsSel <;> cases placed <;>
        simp_all [projectorStep, selectionSyncEffect, terminalCloseEffect] <;>
          split_ifs <;> simp_all [GameStatus.isTerminal]
  · cases gsSel <;> cases placed <;>
      simp_all [projectorStep, selectionSyncEffect, terminalCloseEffect] <;>
        split_ifs <;> simp_all [GameStatus.isTerminal]

/-- C7 witness: the gating rules applied at concrete inputs, selection
set containing 5, empty placed-bet index, and an initially visible
overlay for the terminal and active parts. -/
theorem overlay_gating_rules_witness :
    (projectorStep [5] [] .waiting {}).showCartelas = true
    ∧ (projectorStep [5] [] .completed { showCartelas := true }).showCartelas = false
    ∧ (projectorStep [5] [] .completed { showCartelas := true }).selectedCartelas = []
    ∧ (projectorStep [5] [] .active { showCartelas := true }).showCartelas = true :=
  ⟨overlay_gating_rules.1 [5] [] {} (Or.inl (by decide)) rfl,
   overlay_gating_rules.2.1 [5] [] .completed { showCartelas := true } rfl,
   overlay_gating_rules.2.2.1 [5] [] .completed { showCartelas := true } rfl rfl,
   overlay_gating_rules.2.2.2 [5] [] { showCartelas := true } (Or.inl (by decide))⟩

/-- C8: the column-derivation function agrees with the specified letter
assignment for every integer (B for 1-15, I for 16-30, N for 31-45, G for
46-60, O for 61-75, and the empty string, meaning no defined column, for
anything outside 1..75, in particular for 0 and 76), and the copy in the
utils module computes the same function. -/
theorem getColumnForNumber_spec :
    (∀ n : Int, getColumnForNumber n = columnSpec n)
    ∧ (∀ n : Int, getColumnForNumberUtils n = getColumnForNumber n)
    ∧ getColumnForNumber 0 = ""
    ∧ getColumnForNumber 76 = "" := by
  refine ⟨fun n => ?_, fun n => rfl, rfl, rfl⟩
  unfold getColumnForNumber columnSpec
  split_ifs <;> first | rfl | omega

/-- C9: with an absent (null) or empty display token, initializeSocket
creates no socket, sets the NO_TOKEN message as the connection error and
the connected flag false, and the surrounding connection effect likewise
creates no socket. -/
theorem initSocket_no_token :
    ∀ (t : Option String) (st : ConnState), tokenFalsy t = true →
      (initSocket t st).2 = false
      ∧ (initSocket t st).1.connectionError = some noTokenMessage
      ∧ (initSocket t st).1.isConnected = false
      ∧ (connectionEffect t st).2 = false := by
  intro t st h
  simp [initSocket, connectionEffect, h]

/-- C9 witness: the no-token theorem applied at the null token and the
initial hook state. -/
theorem initSocket_no_token_witness :
    (initSocket none {}).2 = false
    ∧ (initSocket none {}).1.connectionError = some noTokenMessage
    ∧ (initSocket none {}).1.isConnected = false
    ∧ (connectionEffect none {}).2 = false :=
  initSocket_no_token none {} rfl

/-- C10 counterexample: with totalStack previously 500, a
game_data_updated event explicitly supplying totalStack 0 overwrites the
aggregate with 0 instead of preserving 500, because the second registered
game_data_updated handler merges with the nullish idiom, overriding the
first handler's falsy-coalescing merge. -/
theorem gameDataUpdated_zero_overwrites :
    (applyGameDataUpdated { id := some "game-1", totalStack := some 0 }
      { initialGameState with totalStack := 500 }).totalStack = 0 :=
  rfl

/-- C10 amended: through bets_placed a supplied zero is treated like an
absent field, leaving the whole state unchanged when every financial
field is supplied as 0; through game_data_updated (both registered
handlers composed) a supplied zero overwrites the aggregate, and only an
absent field preserves the previous value. -/
theorem financial_zero_merge_rules :
    (∀ (s : GameState), applyBetsPlaced zeroFinancialsPayload s = s)
    ∧ (∀ (s : GameState),
      (applyGameDataUpdated { id := some "game-1", totalStack := some 0 } s).totalStack
        = 0)
    ∧ (∀ (s : GameState),
      (applyGameDataUpdated { id := some "game-1" } s).totalStack = s.totalStack) := by
  refine ⟨fun s => ?_, fun s => rfl, fun s => rfl⟩
  cases s
  rfl

end Display
